import Mathlib

/-!
Shallow embedding of `src/demographic_analytics.js` (a client-side dashboard
module) and proofs about its refresh orchestration, rendering and derived
computations.

Modelling conventions:
* JS numbers appearing in arithmetic are modelled as `ℚ` (counts as `Nat`);
  `Math.round` is modelled as `fun x => Rat.floor (x + 1/2)`, which is how JS
  rounds (half toward positive infinity).
* A JS object field that may be absent/`undefined` is an `Option`; the JS
  pattern `v || d` on such a field is `Option.getD` (with the zero-falsiness
  case handled explicitly where the table could contain `0`).
* DOM containers are modelled by the list of children (or `Option` text
  content); `innerHTML = ''` is replacing that list by `[]`.
* A thrown JS exception is an explicit error value (`Except`/`Option JsError`);
  a `try { ... } catch (e) { console.error(...) }` block is a total function
  that maps the error case to a console-error count increment.
* The module-level page is a `PageState` record threaded through the load
  steps; `fetch` outcomes are supplied by a `FetchEnv` describing the four
  endpoints' responses (`Except.error` = network/parse failure).
-/

namespace Demographic

/-- A JS runtime error reaching a `catch` block: either a failed
`fetch`/`json()` (network or parse) or a `TypeError` from dereferencing
`undefined`. -/
inductive JsError
  | networkError
  | typeError
deriving DecidableEq

/-- Model of `Math.round` on exact rationals: JS rounds half toward positive
infinity, i.e. `floor (x + 1/2)`. -/
def jsRound (x : ℚ) : Int :=
  Int.floor (x + 1 / 2)

/-- The static label-to-age table `estimates` inside `estimateAverageAge`
(source lines 93-103), as a partial lookup: `none` models a label that is
not a key of the object literal. -/
def estimates (ageGroup : String) : Option ℚ :=
  if ageGroup = "Neonate (0-28 days)" then some 0.04
  else if ageGroup = "Infant (29 days - 1 year)" then some 0.5
  else if ageGroup = "Toddler (1-3 years)" then some 2
  else if ageGroup = "Preschool (3-5 years)" then some 4
  else if ageGroup = "School Age (5-12 years)" then some 8
  else if ageGroup = "Adolescent (12-18 years)" then some 15
  else if ageGroup = "Young Adult (18-40 years)" then some 29
  else if ageGroup = "Middle Adult (40-65 years)" then some 52
  else if ageGroup = "Geriatric (>65 years)" then some 75
  else none

/-- Model of `estimateAverageAge` (source lines 91-106): `estimates[ageGroup] || 40`.
The `||` also maps a stored `0` to the default, which we keep faithfully even
though the table holds no zero. -/
def estimateAverageAge (ageGroup : String) : ℚ :=
  match estimates ageGroup with
  | some v => if v = 0 then 40 else v
  | none => 40

/-- The `forEach` accumulation over the age-group distribution in
`loadOverviewData` (source lines 65-75): running pair of
`(totalAge, count)`. The distribution object is modelled as an association
list in `Object.keys` order. -/
def overviewAgeFold (dist : List (String × Nat)) : ℚ × Nat :=
  dist.foldl (fun acc p => (acc.1 + estimateAverageAge p.1 * (p.2 : ℚ), acc.2 + p.2)) (0, 0)

/-- The average-age display value of `loadOverviewData` (source line 77):
`count > 0 ? Math.round(totalAge / count) : 0`. -/
def computeAverageAge (dist : List (String × Nat)) : Int :=
  if 0 < (overviewAgeFold dist).2 then
    jsRound ((overviewAgeFold dist).1 / ((overviewAgeFold dist).2 : ℚ))
  else 0

/-- Specification-side weighted sum `Σ count_i * representative_age_i`. -/
def weightedAgeSum (dist : List (String × Nat)) : ℚ :=
  (dist.map (fun p => estimateAverageAge p.1 * (p.2 : ℚ))).sum

/-- Specification-side total count `Σ count_i`. -/
def totalCount (dist : List (String × Nat)) : Nat :=
  (dist.map (fun p => p.2)).sum

lemma overviewAgeFold_go (dist : List (String × Nat)) (a : ℚ) (c : Nat) :
    dist.foldl (fun acc p => (acc.1 + estimateAverageAge p.1 * (p.2 : ℚ), acc.2 + p.2)) (a, c) =
      (a + weightedAgeSum dist, c + totalCount dist) := by
  induction dist generalizing a c with
  | nil => simp [weightedAgeSum, totalCount]
  | cons p rest ih =>
    simp only [List.foldl_cons, ih, weightedAgeSum, totalCount, List.map_cons, List.sum_cons,
      Prod.mk.injEq]
    exact ⟨by ring, by omega⟩

lemma overviewAgeFold_eq (dist : List (String × Nat)) :
    overviewAgeFold dist = (weightedAgeSum dist, totalCount dist) := by
  have h := overviewAgeFold_go dist 0 0
  simpa [overviewAgeFold] using h

/-- Values stored in the `estimates` table are never `0`, so the JS `|| 40`
default never masks a tabulated value. -/
lemma estimates_ne_zero (lbl : String) (v : ℚ) (h : estimates lbl = some v) : v ≠ 0 := by
  unfold estimates at h
  split_ifs at h <;>
    first
      | exact Option.noConfusion h
      | (rw [Option.some_inj] at h; subst h; norm_num)

/-- C2: for every age-group distribution with non-negative integer counts,
the average-age computation returns
`round(Σ(count_i · representative_age_i) / Σ count_i)` when the total count
is positive, and `0` when the total count is `0`. -/
theorem averageAge_spec (dist : List (String × Nat)) :
    (0 < totalCount dist →
      computeAverageAge dist = jsRound (weightedAgeSum dist / (totalCount dist : ℚ))) ∧
    (totalCount dist = 0 → computeAverageAge dist = 0) := by
  constructor
  · intro hpos
    simp [computeAverageAge, overviewAgeFold_eq, hpos]
  · intro hz
    simp [computeAverageAge, overviewAgeFold_eq, hz]

/-- Witness for C2 at the concrete distribution with the two full labels:
total count is 20 and the computation agrees with the rounded weighted
mean. -/
theorem averageAge_spec_witness :
    0 < totalCount [("Neonate (0-28 days)", 10), ("Young Adult (18-40 years)", 10)] ∧
    computeAverageAge [("Neonate (0-28 days)", 10), ("Young Adult (18-40 years)", 10)] =
      jsRound (weightedAgeSum [("Neonate (0-28 days)", 10), ("Young Adult (18-40 years)", 10)] /
        (totalCount [("Neonate (0-28 days)", 10), ("Young Adult (18-40 years)", 10)] : ℚ)) :=
  ⟨by decide, (averageAge_spec _).1 (by decide)⟩

/-- C8: a label that is a key of the static `estimates` table yields its
tabulated representative age, and any other label yields the default `40`. -/
theorem estimateAverageAge_lookup (lbl : String) :
    (∀ v : ℚ, estimates lbl = some v → estimateAverageAge lbl = v) ∧
    (estimates lbl = none → estimateAverageAge lbl = 40) := by
  constructor
  · intro v h
    unfold estimateAverageAge
    rw [h]
    simp [estimates_ne_zero lbl v h]
  · intro h
    unfold estimateAverageAge
    rw [h]

/-- Witness for C8: a tabulated label gives its table value, an absent label
gives `40`. -/
theorem estimateAverageAge_lookup_witness :
    estimateAverageAge "Neonate (0-28 days)" = 0.04 ∧
    estimateAverageAge "Neonate" = 40 :=
  ⟨(estimateAverageAge_lookup _).1 0.04 (by simp [estimates]),
   (estimateAverageAge_lookup _).2 (by simp [estimates])⟩

/-- C5 counterexample: on the distribution with the short labels `"Neonate"`
and `"Young Adult"` the computation returns `40`, not `15` — neither short
label is a key of the `estimates` table (its keys carry the range suffixes),
so both fall back to the default `40`. -/
theorem averageAge_short_labels_cex :
    computeAverageAge [("Neonate", 10), ("Young Adult", 10)] = 40 ∧
    computeAverageAge [("Neonate", 10), ("Young Adult", 10)] ≠ 15 := by
  have h1 : estimateAverageAge "Neonate" = 40 := by
    simp [estimateAverageAge, estimates]
  have h2 : estimateAverageAge "Young Adult" = 40 := by
    simp [estimateAverageAge, estimates]
  have h : computeAverageAge [("Neonate", 10), ("Young Adult", 10)] = 40 := by
    simp only [computeAverageAge, overviewAgeFold, List.foldl_cons, List.foldl_nil, h1, h2]
    norm_num [jsRound, Int.floor_eq_iff]
  exact ⟨h, by rw [h]; decide⟩

/-- C5 amended: on the distribution with the full table labels
`"Neonate (0-28 days)"` and `"Young Adult (18-40 years)"`, the representative
ages are `0.04` and `29` and the result is
`round((10*0.04 + 10*29)/20) = round(14.52) = 15`. -/
theorem averageAge_full_labels :
    computeAverageAge [("Neonate (0-28 days)", 10), ("Young Adult (18-40 years)", 10)] = 15 := by
  have h1 : estimateAverageAge "Neonate (0-28 days)" = 0.04 := by
    norm_num [estimateAverageAge, estimates]
  have h2 : estimateAverageAge "Young Adult (18-40 years)" = 29 := by
    simp [estimateAverageAge, estimates]
  simp only [computeAverageAge, overviewAgeFold, List.foldl_cons, List.foldl_nil, h1, h2]
  norm_num [jsRound, Int.floor_eq_iff]

/-- The `gender_distribution` object of the dashboard summary; each count may
be absent (`undefined`). -/
structure GenderDist where
  male : Option Nat
  female : Option Nat
  other : Option Nat
deriving DecidableEq

/-- The `summary` object of the `/api/demographic/dashboard` response; every
field may be absent. -/
structure Summary where
  total_patients : Option Nat
  age_group_distribution : Option (List (String × Nat))
  gender_distribution : Option GenderDist
deriving DecidableEq

/-- The parsed `/api/demographic/dashboard` response body. -/
structure DashboardData where
  summary : Option Summary
deriving DecidableEq

/-- The three DOM display targets written by `loadOverviewData`
(`total-patients`, `average-age`, `gender-distribution`); `none` means the
element text has not been written yet. -/
structure OverviewDisplay where
  totalPatients : Option Nat
  averageAge : Option Int
  genderText : Option (Nat × Nat × Nat)
deriving DecidableEq

/-- The rendering part of `loadOverviewData` (source lines 59-84), i.e. the
code inside its `try` after `json()` succeeded. `data.summary` falsy skips
everything; `data.summary.total_patients.toLocaleString()` is an unguarded
dereference, so a missing `total_patients` raises a `TypeError`; the
age-group distribution and the gender counts are guarded with `|| {}` /
`|| 0` defaults. -/
def renderOverview (data : DashboardData) (disp : OverviewDisplay) :
    Except JsError OverviewDisplay :=
  match data.summary with
  | none => Except.ok disp
  | some s =>
    match s.total_patients with
    | none => Except.error JsError.typeError
    | some n =>
      let dist := s.age_group_distribution.getD []
      let gd := s.gender_distribution.getD { male := none, female := none, other := none }
      Except.ok
        { totalPatients := some n
          averageAge := some (computeAverageAge dist)
          genderText := some (gd.male.getD 0, gd.female.getD 0, gd.other.getD 0) }

/-- One element of the `high_risk_demographics` array; `mean_risk` may be
absent, in which case `group.mean_risk.toFixed(2)` raises a `TypeError`. -/
structure RiskEntry where
  demographic : String
  mean_risk : Option ℚ
deriving DecidableEq

/-- The parsed `population_risk` analysis response body. -/
structure RiskData where
  high_risk_demographics : Option (List RiskEntry)
deriving DecidableEq

/-- The three risk list containers (`high-risk-list`, `medium-risk-list`,
`low-risk-list`), each the list of its rendered `(demographic, risk)`
children. -/
structure RiskLists where
  high : List (String × ℚ)
  medium : List (String × ℚ)
  low : List (String × ℚ)
deriving DecidableEq

/-- The hardcoded `mediumRiskItems` array (source lines 341-344). -/
def mediumRiskItems : List (String × ℚ) :=
  [("Female, Young Adult", 0.42), ("Male, Middle Adult", 0.38)]

/-- The hardcoded `lowRiskItems` array (source lines 357-360). -/
def lowRiskItems : List (String × ℚ) :=
  [("Female, Adolescent", 0.18), ("Male, School Age", 0.15)]

/-- The `data.high_risk_demographics.forEach` loop of `populateRiskLists`
(source lines 330-338): append one item per entry, aborting with a
`TypeError` (which propagates out of the enclosing function) as soon as an
entry lacks `mean_risk`. -/
def pushHighRiskItems : List RiskEntry → RiskLists → RiskLists × Option JsError
  | [], s => (s, none)
  | e :: rest, s =>
    match e.mean_risk with
    | none => (s, some JsError.typeError)
    | some r => pushHighRiskItems rest { s with high := s.high ++ [(e.demographic, r)] }

/-- Model of `populateRiskLists` (source lines 318-371): clear all three lists, return
early when `high_risk_demographics` is absent, otherwise fill the high list
from the response and the medium/low lists from the fixed placeholder
arrays. The second component is the exception escaping the function, if
any. -/
def populateRiskLists (data : RiskData) (_lists : RiskLists) : RiskLists × Option JsError :=
  let cleared : RiskLists := { high := [], medium := [], low := [] }
  match data.high_risk_demographics with
  | none => (cleared, none)
  | some groups =>
    match pushHighRiskItems groups cleared with
    | (s, some e) => (s, some e)
    | (s, none) => ({ s with medium := mediumRiskItems, low := lowRiskItems }, none)

/-- Model of `populateInsightList` (source lines 414-425): a missing target element is
a silent no-op; otherwise the list is cleared (`innerHTML = ''`) and one
`li` per insight string is appended. The container is the list of its
children's text contents, `none` when `getElementById` returns null. -/
def populateInsightList (insights : List String) (list : Option (List String)) :
    Option (List String) :=
  match list with
  | none => none
  | some _ => some (insights.foldl (fun acc i => acc ++ [i]) [])

/-- Rendered child lists depend only on the input data, never on the previous
children: `pushHighRiskItems` only ever appends to what it is given. -/
lemma pushHighRiskItems_append (l : List RiskEntry) (s : RiskLists)
    (h : ∀ e ∈ l, e.mean_risk ≠ none) :
    pushHighRiskItems l s =
      ({ s with high := s.high ++ l.map (fun e => (e.demographic, e.mean_risk.getD 0)) },
        none) := by
  induction l generalizing s with
  | nil => simp [pushHighRiskItems]
  | cons e rest ih =>
    have he : e.mean_risk ≠ none := h e (List.mem_cons_self e rest)
    obtain ⟨r, hr⟩ := Option.ne_none_iff_exists'.mp he
    have hrest : ∀ x ∈ rest, x.mean_risk ≠ none := fun x hx => h x (List.mem_cons_of_mem e hx)
    simp [pushHighRiskItems, hr, ih _ hrest]

/-- C9: whenever the response contains a `high_risk_demographics` array (all
of whose entries carry a `mean_risk`, as the API shape prescribes), the
rendered high-risk list has exactly one entry per array element in array
order, showing its demographic label and mean risk, while the medium- and
low-risk lists are exactly the two fixed placeholder entries each,
independent of the response contents and of the previous list contents. -/
theorem populateRiskLists_spec (d : RiskData) (l : List RiskEntry) (s : RiskLists)
    (hd : d.high_risk_demographics = some l)
    (hwf : ∀ e ∈ l, e.mean_risk ≠ none) :
    (populateRiskLists d s).1.high = l.map (fun e => (e.demographic, e.mean_risk.getD 0)) ∧
    (populateRiskLists d s).1.medium = mediumRiskItems ∧
    (populateRiskLists d s).1.low = lowRiskItems ∧
    (populateRiskLists d s).2 = none := by
  simp [populateRiskLists, hd, pushHighRiskItems_append _ _ hwf]

/-- Witness for C9 at a one-entry response. -/
theorem populateRiskLists_spec_witness :
    (populateRiskLists
        { high_risk_demographics := some [{ demographic := "Male, Geriatric", mean_risk := some 0.61 }] }
        { high := [], medium := [], low := [] }).1.high =
      [("Male, Geriatric", (0.61 : ℚ))] := by
  have h := populateRiskLists_spec
    { high_risk_demographics := some [{ demographic := "Male, Geriatric", mean_risk := some 0.61 }] }
    [{ demographic := "Male, Geriatric", mean_risk := some 0.61 }]
    { high := [], medium := [], low := [] }
    rfl (by simp)
  simpa using h.1

/-- C10: when `high_risk_demographics` is absent, `populateRiskLists` clears
all three lists and returns early, so all three end up empty — the
medium/low placeholder entries are not restored either. -/
theorem populateRiskLists_missing_array (d : RiskData) (s : RiskLists)
    (hd : d.high_risk_demographics = none) :
    populateRiskLists d s = ({ high := [], medium := [], low := [] }, none) := by
  simp [populateRiskLists, hd]

/-- Witness for C10 at a concrete response without the array. -/
theorem populateRiskLists_missing_array_witness :
    populateRiskLists { high_risk_demographics := none }
        { high := [("x", 1)], medium := [("y", 2)], low := [("z", 3)] } =
      ({ high := [], medium := [], low := [] }, none) :=
  populateRiskLists_missing_array _ _ rfl

/-- C7: the render functions are idempotent — invoking them twice with the
same input leaves the target containers exactly as one invocation does,
because each clears its target before repopulating: the result never
depends on the previous children. -/
theorem render_idempotent (ins : List String) (c : Option (List String))
    (d : RiskData) (s : RiskLists) :
    populateInsightList ins (populateInsightList ins c) = populateInsightList ins c ∧
    populateRiskLists d (populateRiskLists d s).1 = populateRiskLists d s := by
  constructor
  · cases c <;> rfl
  · rfl

/-- One `gender_comparisons` entry: per-metric male/female means and
p-value. -/
structure GenderComparison where
  male_mean : ℚ
  female_mean : ℚ
  p_value : ℚ
deriving DecidableEq

/-- The parsed `gender_comparison` analysis response body. -/
structure GenderData where
  gender_comparisons : Option (List (String × GenderComparison))
deriving DecidableEq

/-- A Plotly chart target: category labels plus the plotted numeric
series. -/
structure ChartPlot where
  x : List String
  series : List (List ℚ)
deriving DecidableEq

/-- Model of `createGenderComparisonChart` (source lines 125-177): skip when
`gender_comparisons` is absent, otherwise plot male and female means per
metric. -/
def createGenderComparisonChart (data : GenderData) (chart : Option ChartPlot) :
    Option ChartPlot :=
  match data.gender_comparisons with
  | none => chart
  | some comps =>
    some { x := comps.map (fun p => p.1)
           series := [comps.map (fun p => p.2.male_mean), comps.map (fun p => p.2.female_mean)] }

/-- Model of `createGenderRiskChart` (source lines 179-207): plots a fixed sample
chart, ignoring its argument. -/
def createGenderRiskChart (_data : GenderData) : Option ChartPlot :=
  some { x := ["Male", "Female", "Other"], series := [[0.35, 0.28, 0.31]] }

/-- Per-group heart-rate statistics in the `age_group_trends` response. -/
structure HeartRateStat where
  mean : ℚ
deriving DecidableEq

/-- The `age_group_means` object; `heart_rate` may be absent. -/
structure AgeGroupMeans where
  heart_rate : Option (List (String × HeartRateStat))
deriving DecidableEq

/-- The parsed `age_group_trends` analysis response body. -/
structure AgeData where
  age_group_counts : Option (List (String × Nat))
  age_group_means : Option AgeGroupMeans
deriving DecidableEq

/-- Model of `createAgeDistributionChart` (source lines 225-267): skip when
`age_group_counts` is absent, otherwise a pie chart of the counts. -/
def createAgeDistributionChart (data : AgeData) (chart : Option ChartPlot) :
    Option ChartPlot :=
  match data.age_group_counts with
  | none => chart
  | some counts =>
    some { x := counts.map (fun p => p.1), series := [counts.map (fun p => (p.2 : ℚ))] }

/-- Model of `createAgeRiskChart` (source lines 269-304): skip when `age_group_means`
or its `heart_rate` member is absent, otherwise plot the per-group mean
heart rates. -/
def createAgeRiskChart (data : AgeData) (chart : Option ChartPlot) : Option ChartPlot :=
  match data.age_group_means with
  | none => chart
  | some means =>
    match means.heart_rate with
    | none => chart
    | some hr => some { x := hr.map (fun p => p.1), series := [hr.map (fun p => p.2.mean)] }

/-- The static insight string arrays of `loadDemographicInsights`
(source lines 376-402). -/
def femaleInsightsData : List String :=
  ["Higher autoimmune disease prevalence may complicate diagnosis",
   "Consider pregnancy status in women of childbearing age",
   "Gynecological sources should be considered in sepsis workup",
   "May present with more robust inflammatory response"]

/-- Static insight strings for the male bucket. -/
def maleInsightsData : List String :=
  ["Higher baseline mortality risk from sepsis",
   "Consider prostate/urinary sources in older males",
   "May have delayed presentation to healthcare",
   "Higher risk of community-acquired pneumonia"]

/-- Static insight strings for the geriatric bucket. -/
def geriatricInsightsData : List String :=
  ["Atypical presentation common - watch for delirium or functional decline",
   "Lower fever threshold (≥37.8°C may be significant)",
   "Multiple comorbidities can mask sepsis symptoms",
   "Higher risk of healthcare-associated infections"]

/-- Static insight strings for the pediatric bucket. -/
def pediatricInsightsData : List String :=
  ["Rapid deterioration possible in neonates and infants",
   "Non-specific symptoms: poor feeding, lethargy, irritability",
   "Higher heart rate and respiratory rate baselines",
   "Consider maternal risk factors for early-onset sepsis"]

/-- A row of the `sampleNorms` table (source lines 446-456); every cell is
read through `|| 'N/A'`, hence `Option`. -/
structure NormEntry where
  hr : Option String
  bp : Option String
  rr : Option String
  temp : Option String
  risk : Option String
deriving DecidableEq

/-- The nine group labels iterated by `loadPopulationNorms`
(source lines 430-440). -/
def normAgeGroups : List String :=
  ["Neonate", "Infant", "Toddler", "Preschool", "School Age", "Adolescent",
   "Young Adult", "Middle Adult", "Geriatric"]

/-- The hardcoded `sampleNorms` object (source lines 446-456). -/
def sampleNorms (group : String) : Option NormEntry :=
  if group = "Neonate" then
    some { hr := some "120-160", bp := some "60-90", rr := some "30-60",
           temp := some "36.5-37.5", risk := some "2.5" }
  else if group = "Infant" then
    some { hr := some "80-140", bp := some "70-100", rr := some "20-40",
           temp := some "36.6-37.7", risk := some "1.8" }
  else if group = "Toddler" then
    some { hr := some "70-120", bp := some "80-110", rr := some "20-30",
           temp := some "36.7-37.8", risk := some "1.2" }
  else if group = "Preschool" then
    some { hr := some "65-110", bp := some "85-115", rr := some "20-30",
           temp := some "36.5-37.5", risk := some "0.9" }
  else if group = "School Age" then
    some { hr := some "60-100", bp := some "90-120", rr := some "15-25",
           temp := some "36.5-37.5", risk := some "0.8" }
  else if group = "Adolescent" then
    some { hr := some "55-95", bp := some "95-125", rr := some "12-20",
           temp := some "36.5-37.5", risk := some "0.6" }
  else if group = "Young Adult" then
    some { hr := some "60-100", bp := some "105-130", rr := some "12-20",
           temp := some "36.5-37.5", risk := some "0.9" }
  else if group = "Middle Adult" then
    some { hr := some "60-100", bp := some "110-135", rr := some "12-20",
           temp := some "36.5-37.5", risk := some "1.2" }
  else if group = "Geriatric" then
    some { hr := some "60-100", bp := some "115-140", rr := some "12-25",
           temp := some "36.0-37.2", risk := some "5.4" }
  else none

/-- Model of `getAgeGroupClass` (source lines 479-493): `classes[ageGroup] || 'adult'`
(all stored class strings are truthy). -/
def getAgeGroupClass (ageGroup : String) : String :=
  if ageGroup = "Neonate" then "neonate"
  else if ageGroup = "Infant" then "pediatric"
  else if ageGroup = "Toddler" then "pediatric"
  else if ageGroup = "Preschool" then "pediatric"
  else if ageGroup = "School Age" then "pediatric"
  else if ageGroup = "Adolescent" then "adult"
  else if ageGroup = "Young Adult" then "adult"
  else if ageGroup = "Middle Adult" then "adult"
  else if ageGroup = "Geriatric" then "geriatric"
  else "adult"

/-- A rendered row of the population-norms table (source lines 458-472):
badge class, group label, and the five cells with the `|| 'N/A'`
fallback. -/
structure NormRow where
  badgeClass : String
  label : String
  hr : String
  bp : String
  rr : String
  temp : String
  risk : String
deriving DecidableEq

/-- Build one table row for a group: `sampleNorms[group] || {}` then each
cell `|| 'N/A'`. -/
def renderNormRow (group : String) : NormRow :=
  let norms := (sampleNorms group).getD
    { hr := none, bp := none, rr := none, temp := none, risk := none }
  { badgeClass := getAgeGroupClass group
    label := group
    hr := norms.hr.getD "N/A"
    bp := norms.bp.getD "N/A"
    rr := norms.rr.getD "N/A"
    temp := norms.temp.getD "N/A"
    risk := norms.risk.getD "N/A" }

/-- The six load steps of the dashboard, in the order of the initial-load
chain. -/
inductive Step
  | overview
  | gender
  | ageGroup
  | risk
  | insights
  | norms
deriving DecidableEq

/-- The outcomes of the four `fetch`+`json()` calls during one orchestration
pass; `Except.error` is a network or parse failure rejecting the promise
inside the load step's `try`. -/
structure FetchEnv where
  dashboard : Except JsError DashboardData
  genderComparison : Except JsError GenderData
  ageGroupTrends : Except JsError AgeData
  populationRisk : Except JsError RiskData

/-- The page: which load steps have been invoked, every display target, the
console error count, the notifications appended to `document.body` by
`showNotification` (message, type) and by `showError`, and the registered
`setInterval` period. -/
structure PageState where
  invoked : List Step
  overviewDisp : OverviewDisplay
  genderComparisonChart : Option ChartPlot
  genderRiskChart : Option ChartPlot
  ageDistributionChart : Option ChartPlot
  ageRiskChart : Option ChartPlot
  riskLists : RiskLists
  femaleList : Option (List String)
  maleList : Option (List String)
  geriatricList : Option (List String)
  pediatricList : Option (List String)
  normsTable : List NormRow
  consoleErrors : Nat
  notifications : List (String × String)
  errorBanners : List String
  refreshIntervalMs : Option Nat
deriving DecidableEq

/-- A fresh page before any load step ran. -/
def emptyPageState : PageState :=
  { invoked := []
    overviewDisp := { totalPatients := none, averageAge := none, genderText := none }
    genderComparisonChart := none
    genderRiskChart := none
    ageDistributionChart := none
    ageRiskChart := none
    riskLists := { high := [], medium := [], low := [] }
    femaleList := some []
    maleList := some []
    geriatricList := some []
    pediatricList := some []
    normsTable := []
    consoleErrors := 0
    notifications := []
    errorBanners := []
    refreshIntervalMs := none }

/-- Model of `loadOverviewData` (source lines 54-89): its whole body sits inside
`try { ... } catch (error) { console.error(...) }` with no rethrow, so the
function always resolves; a failed fetch or a `TypeError` in the render only
increments the console error count. -/
def loadOverviewData (env : FetchEnv) (st : PageState) : PageState :=
  let st := { st with invoked := st.invoked ++ [Step.overview] }
  match env.dashboard with
  | Except.error _ => { st with consoleErrors := st.consoleErrors + 1 }
  | Except.ok data =>
    match renderOverview data st.overviewDisp with
    | Except.error _ => { st with consoleErrors := st.consoleErrors + 1 }
    | Except.ok disp => { st with overviewDisp := disp }

/-- Model of `loadGenderAnalysis` (source lines 108-123): fetch, then draw the two
charts; its own `catch` swallows any failure. -/
def loadGenderAnalysis (env : FetchEnv) (st : PageState) : PageState :=
  let st := { st with invoked := st.invoked ++ [Step.gender] }
  match env.genderComparison with
  | Except.error _ => { st with consoleErrors := st.consoleErrors + 1 }
  | Except.ok data =>
    { st with
      genderComparisonChart := createGenderComparisonChart data st.genderComparisonChart
      genderRiskChart := createGenderRiskChart data }

/-- Model of `loadAgeGroupAnalysis` (source lines 209-223): fetch, then draw the two
charts; its own `catch` swallows any failure. -/
def loadAgeGroupAnalysis (env : FetchEnv) (st : PageState) : PageState :=
  let st := { st with invoked := st.invoked ++ [Step.ageGroup] }
  match env.ageGroupTrends with
  | Except.error _ => { st with consoleErrors := st.consoleErrors + 1 }
  | Except.ok data =>
    { st with
      ageDistributionChart := createAgeDistributionChart data st.ageDistributionChart
      ageRiskChart := createAgeRiskChart data st.ageRiskChart }

/-- Model of `loadRiskStratification` (source lines 306-316): fetch, then
`populateRiskLists`; an exception thrown by the render (missing `mean_risk`)
is caught here, with the partially filled lists left in place. -/
def loadRiskStratification (env : FetchEnv) (st : PageState) : PageState :=
  let st := { st with invoked := st.invoked ++ [Step.risk] }
  match env.populationRisk with
  | Except.error _ => { st with consoleErrors := st.consoleErrors + 1 }
  | Except.ok data =>
    match populateRiskLists data st.riskLists with
    | (lists, some _) => { st with riskLists := lists, consoleErrors := st.consoleErrors + 1 }
    | (lists, none) => { st with riskLists := lists }

/-- Model of `loadDemographicInsights` (source lines 373-412): no fetch at all; fill
the four static lists. -/
def loadDemographicInsights (st : PageState) : PageState :=
  { st with
    invoked := st.invoked ++ [Step.insights]
    femaleList := populateInsightList femaleInsightsData st.femaleList
    maleList := populateInsightList maleInsightsData st.maleList
    geriatricList := populateInsightList geriatricInsightsData st.geriatricList
    pediatricList := populateInsightList pediatricInsightsData st.pediatricList }

/-- Model of `loadPopulationNorms` (source lines 427-477): no fetch; clear the table
body and render one row per group from the hardcoded `sampleNorms`. -/
def loadPopulationNorms (st : PageState) : PageState :=
  { st with
    invoked := st.invoked ++ [Step.norms]
    normsTable := normAgeGroups.map renderNormRow }

/-- Model of `showError` (source lines 510-526): append an error banner to the
document body. -/
def showError (message : String) (st : PageState) : PageState :=
  { st with errorBanners := st.errorBanners ++ [message] }

/-- Model of `showNotification` (source lines 528-543): append a typed toast to the
document body. -/
def showNotification (message : String) (kind : String) (st : PageState) : PageState :=
  { st with notifications := st.notifications ++ [(message, kind)] }

/-- Model of `initializeDemographicAnalytics` (source lines 25-52): sequentially await
the six load steps, then register the 300000 ms refresh interval. Every
awaited step catches its own errors and always resolves, so the surrounding
`try`/`catch` (which would log and call `showError`) can never fire; the
body is therefore total. -/
def initializeDemographicAnalytics (env : FetchEnv) (st : PageState) : PageState :=
  let st := loadOverviewData env st
  let st := loadGenderAnalysis env st
  let st := loadAgeGroupAnalysis env st
  let st := loadRiskStratification env st
  let st := loadDemographicInsights st
  let st := loadPopulationNorms st
  { st with refreshIntervalMs := some 300000 }

/-- Model of `updateDemographicData` (source lines 495-508): the periodic cycle
re-runs the reduced subset (overview, gender, age-group) and then shows the
success toast. The three steps always resolve, so the toast is reached on
every cycle and the surrounding `catch` can never fire. -/
def updateDemographicData (env : FetchEnv) (st : PageState) : PageState :=
  let st := loadOverviewData env st
  let st := loadGenderAnalysis env st
  let st := loadAgeGroupAnalysis env st
  showNotification "Demographic data updated" "success" st

/-- Successive firings of the registered interval, each with its own fetch
outcomes. -/
def runRefreshCycles : List FetchEnv → PageState → PageState
  | [], st => st
  | env :: rest, st => runRefreshCycles rest (updateDemographicData env st)

lemma loadOverviewData_effects (env : FetchEnv) (st : PageState) :
    (loadOverviewData env st).invoked = st.invoked ++ [Step.overview] ∧
    (loadOverviewData env st).errorBanners = st.errorBanners ∧
    (loadOverviewData env st).notifications = st.notifications ∧
    (loadOverviewData env st).refreshIntervalMs = st.refreshIntervalMs := by
  unfold loadOverviewData
  split
  · exact ⟨rfl, rfl, rfl, rfl⟩
  · dsimp only
    split <;> exact ⟨rfl, rfl, rfl, rfl⟩

lemma loadGenderAnalysis_effects (env : FetchEnv) (st : PageState) :
    (loadGenderAnalysis env st).invoked = st.invoked ++ [Step.gender] ∧
    (loadGenderAnalysis env st).errorBanners = st.errorBanners ∧
    (loadGenderAnalysis env st).notifications = st.notifications ∧
    (loadGenderAnalysis env st).refreshIntervalMs = st.refreshIntervalMs := by
  unfold loadGenderAnalysis
  split <;> exact ⟨rfl, rfl, rfl, rfl⟩

lemma loadAgeGroupAnalysis_effects (env : FetchEnv) (st : PageState) :
    (loadAgeGroupAnalysis env st).invoked = st.invoked ++ [Step.ageGroup] ∧
    (loadAgeGroupAnalysis env st).errorBanners = st.errorBanners ∧
    (loadAgeGroupAnalysis env st).notifications = st.notifications ∧
    (loadAgeGroupAnalysis env st).refreshIntervalMs = st.refreshIntervalMs := by
  unfold loadAgeGroupAnalysis
  split <;> exact ⟨rfl, rfl, rfl, rfl⟩

lemma loadRiskStratification_effects (env : FetchEnv) (st : PageState) :
    (loadRiskStratification env st).invoked = st.invoked ++ [Step.risk] ∧
    (loadRiskStratification env st).errorBanners = st.errorBanners ∧
    (loadRiskStratification env st).notifications = st.notifications ∧
    (loadRiskStratification env st).refreshIntervalMs = st.refreshIntervalMs := by
  unfold loadRiskStratification
  split
  · exact ⟨rfl, rfl, rfl, rfl⟩
  · dsimp only
    split <;> exact ⟨rfl, rfl, rfl, rfl⟩

lemma loadDemographicInsights_effects (st : PageState) :
    (loadDemographicInsights st).invoked = st.invoked ++ [Step.insights] ∧
    (loadDemographicInsights st).errorBanners = st.errorBanners ∧
    (loadDemographicInsights st).notifications = st.notifications ∧
    (loadDemographicInsights st).refreshIntervalMs = st.refreshIntervalMs :=
  ⟨rfl, rfl, rfl, rfl⟩

lemma loadPopulationNorms_effects (st : PageState) :
    (loadPopulationNorms st).invoked = st.invoked ++ [Step.norms] ∧
    (loadPopulationNorms st).errorBanners = st.errorBanners ∧
    (loadPopulationNorms st).notifications = st.notifications ∧
    (loadPopulationNorms st).refreshIntervalMs = st.refreshIntervalMs :=
  ⟨rfl, rfl, rfl, rfl⟩

/-- A fetch environment in which the overview endpoint fails and the other
three succeed (with minimal bodies). -/
def overviewFailEnv : FetchEnv :=
  { dashboard := Except.error JsError.networkError
    genderComparison := Except.ok { gender_comparisons := none }
    ageGroupTrends := Except.ok { age_group_counts := none, age_group_means := none }
    populationRisk := Except.ok { high_risk_demographics := none } }

/-- C1 counterexample: with the overview fetch failing, the initial load
still invokes every one of the five subsequent steps — the chain does not
short-circuit, because `loadOverviewData` catches its own error and
resolves. -/
theorem initialLoad_no_shortCircuit_cex :
    overviewFailEnv.dashboard = Except.error JsError.networkError ∧
    (initializeDemographicAnalytics overviewFailEnv emptyPageState).invoked =
      [Step.overview, Step.gender, Step.ageGroup, Step.risk, Step.insights, Step.norms] :=
  ⟨rfl, rfl⟩

/-- C1 amended: every load step catches and logs its own failure without
rethrowing, so for every fetch outcome — a failed overview fetch included —
all six steps of the initial load are invoked in order, no error banner is
ever shown, and the refresh interval is always registered. -/
theorem initialLoad_runs_all_steps (env : FetchEnv) (st : PageState) :
    (initializeDemographicAnalytics env st).invoked =
      st.invoked ++ [Step.overview, Step.gender, Step.ageGroup, Step.risk,
        Step.insights, Step.norms] ∧
    (initializeDemographicAnalytics env st).errorBanners = st.errorBanners := by
  obtain ⟨o1, o2, o3, o4⟩ := loadOverviewData_effects env st
  obtain ⟨g1, g2, g3, g4⟩ := loadGenderAnalysis_effects env (loadOverviewData env st)
  obtain ⟨a1, a2, a3, a4⟩ :=
    loadAgeGroupAnalysis_effects env (loadGenderAnalysis env (loadOverviewData env st))
  obtain ⟨r1, r2, r3, r4⟩ :=
    loadRiskStratification_effects env
      (loadAgeGroupAnalysis env (loadGenderAnalysis env (loadOverviewData env st)))
  obtain ⟨i1, i2, i3, i4⟩ :=
    loadDemographicInsights_effects
      (loadRiskStratification env
        (loadAgeGroupAnalysis env (loadGenderAnalysis env (loadOverviewData env st))))
  obtain ⟨n1, n2, n3, n4⟩ :=
    loadPopulationNorms_effects
      (loadDemographicInsights
        (loadRiskStratification env
          (loadAgeGroupAnalysis env (loadGenderAnalysis env (loadOverviewData env st)))))
  unfold initializeDemographicAnalytics
  constructor
  · simp [n1, i1, r1, a1, g1, o1]
  · simp [n2, i2, r2, a2, g2, o2]

/-- A fetch environment in which every endpoint fails. -/
def allFailEnv : FetchEnv :=
  { dashboard := Except.error JsError.networkError
    genderComparison := Except.error JsError.networkError
    ageGroupTrends := Except.error JsError.networkError
    populationRisk := Except.error JsError.networkError }

/-- C4 counterexample: in a periodic cycle where all three fetches fail
(three console errors logged), the success toast is still shown — the
success notification is not contingent on the steps succeeding. -/
theorem refresh_failure_toast_cex :
    (updateDemographicData allFailEnv emptyPageState).consoleErrors = 3 ∧
    (updateDemographicData allFailEnv emptyPageState).notifications =
      [("Demographic data updated", "success")] :=
  ⟨rfl, rfl⟩

/-- C4 amended: every periodic cycle ends by appending the success toast,
regardless of whether its steps succeeded — each step catches its own
errors and always resolves, so `updateDemographicData` never rejects.
Failures within a cycle are logged to the console only: no error banner is
added. -/
theorem refresh_always_notifies (env : FetchEnv) (st : PageState) :
    (updateDemographicData env st).notifications =
      st.notifications ++ [("Demographic data updated", "success")] ∧
    (updateDemographicData env st).errorBanners = st.errorBanners := by
  obtain ⟨o1, o2, o3, o4⟩ := loadOverviewData_effects env st
  obtain ⟨g1, g2, g3, g4⟩ := loadGenderAnalysis_effects env (loadOverviewData env st)
  obtain ⟨a1, a2, a3, a4⟩ :=
    loadAgeGroupAnalysis_effects env (loadGenderAnalysis env (loadOverviewData env st))
  unfold updateDemographicData showNotification
  constructor
  · simp [a3, g3, o3]
  · simp [a2, g2, o2]

lemma updateDemographicData_interval (env : FetchEnv) (st : PageState) :
    (updateDemographicData env st).refreshIntervalMs = st.refreshIntervalMs := by
  obtain ⟨-, -, -, o4⟩ := loadOverviewData_effects env st
  obtain ⟨-, -, -, g4⟩ := loadGenderAnalysis_effects env (loadOverviewData env st)
  obtain ⟨-, -, -, a4⟩ :=
    loadAgeGroupAnalysis_effects env (loadGenderAnalysis env (loadOverviewData env st))
  unfold updateDemographicData showNotification
  simp [a4, g4, o4]

lemma runRefreshCycles_interval (envs : List FetchEnv) (st : PageState) :
    (runRefreshCycles envs st).refreshIntervalMs = st.refreshIntervalMs := by
  induction envs generalizing st with
  | nil => rfl
  | cons e rest ih => simp [runRefreshCycles, ih, updateDemographicData_interval]

/-- C6: the initial load registers the periodic refresh with a 300000 ms
interval; each cycle re-runs exactly the reduced subset (overview, gender
analysis, age-group analysis — neither insights nor population norms); and
no cycle, failing or not, ever touches the registered interval, so after
any sequence of (possibly failing) cycles the timer is still registered and
the next cycle fires. -/
theorem periodicRefresh_spec (env : FetchEnv) (st : PageState) (envs : List FetchEnv) :
    (initializeDemographicAnalytics env st).refreshIntervalMs = some 300000 ∧
    (updateDemographicData env st).invoked =
      st.invoked ++ [Step.overview, Step.gender, Step.ageGroup] ∧
    (runRefreshCycles envs st).refreshIntervalMs = st.refreshIntervalMs := by
  refine ⟨rfl, ?_, runRefreshCycles_interval envs st⟩
  obtain ⟨o1, -, -, -⟩ := loadOverviewData_effects env st
  obtain ⟨g1, -, -, -⟩ := loadGenderAnalysis_effects env (loadOverviewData env st)
  obtain ⟨a1, -, -, -⟩ :=
    loadAgeGroupAnalysis_effects env (loadGenderAnalysis env (loadOverviewData env st))
  unfold updateDemographicData showNotification
  simp [a1, g1, o1]

/-- A dashboard response whose summary is present but lacks
`total_patients`. -/
def missingTotalData : DashboardData :=
  { summary := some
      { total_patients := none
        age_group_distribution := some [("Young Adult (18-40 years)", 5)]
        gender_distribution := some { male := some 3, female := some 2, other := some 1 } } }

/-- C3 counterexample: a response with `summary` present but
`total_patients` absent makes the overview render throw a `TypeError`
(`data.summary.total_patients.toLocaleString()` dereferences `undefined`)
instead of substituting a placeholder. -/
theorem render_missing_field_throws_cex :
    renderOverview missingTotalData
        { totalPatients := none, averageAge := none, genderText := none } =
      Except.error JsError.typeError :=
  rfl

/-- C3 amended: fields read through an explicit `||` default substitute a
neutral placeholder without throwing — a missing age-group distribution
yields an average-age display of `0`, each individually missing gender
count renders as `0` while a present one renders its value, and a group
absent from the sample-norms table renders `"N/A"` in every cell of its
row. But the render functions do not tolerate every missing field:
`total_patients` is dereferenced unguarded, so a summary without it throws
a `TypeError`, and a high-risk entry without `mean_risk` throws inside the
risk-list render; in both cases the enclosing load step catches the
exception, logs one console error, and renders nothing further for that
step. -/
theorem render_missing_fields (s : Summary) (n f : Nat) (gd : GenderDist)
    (disp : OverviewDisplay)
    (ht : s.total_patients = some n)
    (hag : s.age_group_distribution = none)
    (hg : s.gender_distribution = some gd)
    (hm : gd.male = none) (hf : gd.female = some f) (ho : gd.other = none) :
    renderOverview { summary := some s } disp =
      Except.ok { totalPatients := some n, averageAge := some 0,
                  genderText := some (0, f, 0) } ∧
    (∀ s2 : Summary, s2.total_patients = some n → s2.age_group_distribution = none →
      s2.gender_distribution = none →
      renderOverview { summary := some s2 } disp =
        Except.ok { totalPatients := some n, averageAge := some 0,
                    genderText := some (0, 0, 0) }) ∧
    (∀ g : String, sampleNorms g = none →
      renderNormRow g =
        { badgeClass := getAgeGroupClass g, label := g, hr := "N/A", bp := "N/A",
          rr := "N/A", temp := "N/A", risk := "N/A" }) ∧
    (∀ s2 : Summary, s2.total_patients = none →
      renderOverview { summary := some s2 } disp = Except.error JsError.typeError) ∧
    (∀ e : RiskEntry, e.mean_risk = none → ∀ s0 : RiskLists,
      (populateRiskLists { high_risk_demographics := some [e] } s0).2 =
        some JsError.typeError) ∧
    (∀ (env : FetchEnv) (st : PageState) (s2 : Summary), s2.total_patients = none →
      env.dashboard = Except.ok { summary := some s2 } →
      loadOverviewData env st =
        { st with invoked := st.invoked ++ [Step.overview],
                  consoleErrors := st.consoleErrors + 1 }) ∧
    (∀ (env : FetchEnv) (st : PageState) (e : RiskEntry), e.mean_risk = none →
      env.populationRisk = Except.ok { high_risk_demographics := some [e] } →
      loadRiskStratification env st =
        { st with invoked := st.invoked ++ [Step.risk],
                  riskLists := { high := [], medium := [], low := [] },
                  consoleErrors := st.consoleErrors + 1 }) := by
  refine ⟨?_, ?_, ?_, ?_, ?_, ?_, ?_⟩
  · simp [renderOverview, ht, hag, hg, hm, hf, ho, computeAverageAge, overviewAgeFold]
  · intro s2 h1 h2 h3
    simp [renderOverview, h1, h2, h3, computeAverageAge, overviewAgeFold]
  · intro g hng
    simp [renderNormRow, hng]
  · intro s2 h2
    simp [renderOverview, h2]
  · intro e he s0
    simp [populateRiskLists, pushHighRiskItems, he]
  · intro env st s2 h2 henv
    simp [loadOverviewData, henv, renderOverview, h2]
  · intro env st e he henv
    simp [loadRiskStratification, henv, populateRiskLists, pushHighRiskItems, he]

/-- Witness for C3 amended at a concrete summary whose gender counts are
individually missing except the female one. -/
theorem render_missing_fields_witness :
    renderOverview
        { summary := some
            { total_patients := some 7, age_group_distribution := none,
              gender_distribution := some { male := none, female := some 2, other := none } } }
        { totalPatients := none, averageAge := none, genderText := none } =
      Except.ok { totalPatients := some 7, averageAge := some 0,
                  genderText := some (0, 2, 0) } :=
  (render_missing_fields
      { total_patients := some 7, age_group_distribution := none,
        gender_distribution := some { male := none, female := some 2, other := none } }
      7 2 { male := none, female := some 2, other := none }
      { totalPatients := none, averageAge := none, genderText := none }
      rfl rfl rfl rfl rfl rfl).1

end Demographic
